import Mathlib

/-!
Shallow embedding of the XMLHttpRequest-over-fetch shim in `src/mod.ts`.

The instance's private mutable record `#state` (interface `State` in the
source, fields `readyState`, `draft`, `computed`, `controller`, `response`)
together with the public `timeout` field is embedded as the structure
`Xhr.State`.  Methods and getters become pure functions on this structure;
getters that can throw in JavaScript (a non-null assertion on an absent
field, or an explicit `throw Error(...)`) return `Except JsError`.

The asynchronous part of `send` is embedded as a function from the state and
an `Exchange` (the externally determined behaviour of the underlying `fetch`
call: how long it takes to settle and whether it resolves or rejects) to the
final state together with the list of observable events (callback
invocations, timer operations, and the suspension points listed in the
design), in the order the single-threaded event loop delivers them.
-/

namespace Xhr

/-- The `XMLHttpRequestResponseType` union from `lib.d.ts`:
`"" | "arraybuffer" | "blob" | "document" | "json" | "text"`. -/
inductive RespType
  | empty
  | arraybuffer
  | blob
  | document
  | json
  | text
deriving DecidableEq

/-- Modelled from the spec: the platform `JSON.parse` is an external
collaborator; the spec only requires that the JSON materialization is
"derived deterministically from the decoded text", so its result is embedded
as an opaque deterministic tag of the parsed text. -/
structure JsonValue where
  ofText : String
deriving DecidableEq

/-- Modelled from the spec: `JSON.parse` on the decoded text. -/
def jsonParse (s : String) : JsonValue := ⟨s⟩

/-- The `AbortController` created by `send`; only its aborted flag is
observable through this design. -/
structure Controller where
  aborted : Bool
deriving DecidableEq

/-- The `draft` field of `#state`: method, URL and a mutable header
collection, recorded by `open`.  URL parsing (`new URL(url)`) is an external
collaborator per the spec's scope section and is embedded as the identity on
the url string. -/
structure Draft where
  method : String
  url : String
  headers : List (String × String)
deriving DecidableEq

/-- The raw `Response` object delivered by the external fetch capability:
status, status text, url, an ordered header collection, and the body bytes
(the one-shot consumable body, with `blob()` and `blob.arrayBuffer()` both
materializing these same bytes). -/
structure ResponseData where
  status : Nat
  statusText : String
  url : String
  headers : List (String × String)
  body : List Nat
deriving DecidableEq

/-- The `computed` field of `#state`.  Every field is optional: the source
builds this record by spreading a possibly-absent previous value
(`{...this.#state.computed, ...}` cast to `State["computed"]`), so a record
holding only `type`, with every body materialization still absent, is
constructible (`overrideMimeType`). -/
structure Computed where
  type : Option RespType
  blob : Option (List Nat)
  text : Option String
  buffer : Option (List Nat)
  json : Option JsonValue
deriving DecidableEq

/-- The whole mutable state of one `XMLHttpRequest` instance: the `#state`
record plus the public `timeout` field (milliseconds, default 0). -/
structure State where
  readyState : Nat
  draft : Option Draft
  computed : Option Computed
  controller : Option Controller
  response : Option ResponseData
  timeout : Nat
deriving DecidableEq

/-- The state of a freshly constructed instance: `#state = { readyState: this.UNSENT }`
and `timeout = 0`. -/
def initState : State :=
  { readyState := 0, draft := none, computed := none, controller := none
    response := none, timeout := 0 }

/-- Errors thrown by the embedded JavaScript: a `TypeError` from reading a
property of `undefined` (a non-null assertion on an absent `#state` field),
a `SyntaxError` from `JSON.parse` on a non-string, or an explicit
`throw Error(msg)`. -/
inductive JsError
  | typeError
  | syntaxError
  | thrown (msg : String)
deriving DecidableEq

/-- The suspension points of the design: the timer, the network exchange's
header arrival, body-to-blob materialization, and blob-to-buffer
materialization. -/
inductive SuspensionPoint
  | timerWait
  | headerArrival
  | blobRead
  | bufferRead
deriving DecidableEq

/-- Observable events of one exchange, in event-loop delivery order:
invocations of the single-slot callbacks (`onreadystatechange` with the new
ready state, `onload`, `onerror` with the failure detail, `ontimeout`),
timer operations (`setTimeout`/`clearTimeout`), and suspension points. -/
inductive Event
  | readyStateChange (n : Nat)
  | load
  | error (e : String)
  | timeoutFired
  | startTimer (ms : Nat)
  | clearTimer
  | suspend (p : SuspensionPoint)
deriving DecidableEq

/-- The events emitted by `#setReadyState` (lines 48-57): the
`onreadystatechange` callback is invoked unless the new state is 0. -/
def setReadyStateEvents (n : Nat) : List Event :=
  if n = 0 then [] else [.readyStateChange n]

/-- Modelled from the spec: the rejection value of an abort-induced fetch
rejection (external platform behaviour). -/
def abortErrorDetail : String := "AbortError"

/-- Modelled from the spec: the external timer started by `send` via
`setTimeout(cb, timeout)` races the exchange; per the spec a timeout of 0
"never fires" under the underlying timer semantics, and a positive timeout
fires iff it elapses before the exchange settles. -/
def timerFires (tmo completionTime : Nat) : Bool :=
  decide (0 < tmo ∧ tmo < completionTime)

/-- The externally determined behaviour of one fetch exchange: resolve with
a response, or reject with a failure detail. -/
inductive FetchOutcome
  | success (r : ResponseData)
  | failure (e : String)
deriving DecidableEq

/-- One exchange as seen from outside: how long the fetch takes to settle
and whether it resolves or rejects (absent an abort). -/
structure Exchange where
  completionTime : Nat
  outcome : FetchOutcome
deriving DecidableEq

/-- Modelled from the spec: `new TextDecoder().decode(buf)` is an external
collaborator; it is embedded as a fixed deterministic byte-wise decoding
(which agrees with UTF-8 on ASCII bodies). -/
def textDecode (bs : List Nat) : String :=
  String.mk (bs.map fun b => Char.ofNat (b % 256))

/-- Upsert into a `Headers` collection (`headers.set(name, value)`): the
name is normalized to lowercase and the pair replaces an existing entry of
that name or is appended. -/
def headersSet (hs : List (String × String)) (name value : String) :
    List (String × String) :=
  if hs.any (fun kv => kv.1 = name.toLower) then
    hs.map (fun kv => if kv.1 = name.toLower then (name.toLower, value) else kv)
  else
    hs ++ [(name.toLower, value)]

/-- The `open(method, url)` method (lines 144-151): store a fresh draft with
an empty header collection and transition to `OPENED`, firing the
ready-state-change callback. -/
def openRequest (s : State) (method url : String) : State × List Event :=
  ({ s with
      draft := some { method := method, url := url, headers := [] },
      readyState := 1 },
   setReadyStateEvents 1)

/-- The result of spreading an absent `computed` record: every field
absent. -/
def emptyComputed : Computed :=
  { type := none, blob := none, text := none, buffer := none, json := none }

/-- The `overrideMimeType(type)` method (lines 153-158): spread the
possibly-absent `computed` record and set its `type`. -/
def overrideMimeType (s : State) (t : RespType) : State :=
  let c := s.computed.getD emptyComputed
  { s with computed := some { c with type := some t } }

/-- The `setRequestHeader(name, value)` method (lines 160-165): guarded by
`readyState === OPENED`; inside the guard the draft is dereferenced with a
non-null assertion. -/
def setRequestHeader (s : State) (name value : String) : Except JsError State :=
  if s.readyState = 1 then
    match s.draft with
    | some d => .ok { s with draft := some { d with headers := headersSet d.headers name value } }
    | none => .error .typeError
  else
    .ok s

/-- The `responseType` getter (lines 117-119): `computed?.type ?? "text"`. -/
def responseType (s : State) : RespType :=
  (s.computed.bind Computed.type).getD .text

/-- The `responseText` getter (lines 113-115): `computed?.text ?? null`
(`none` embeds the `null` return). -/
def responseText (s : State) : Option String :=
  s.computed.bind Computed.text

/-- The `responseURL` getter (lines 128-130): `response?.url ?? null`. -/
def responseURL (s : State) : Option String :=
  s.response.map ResponseData.url

/-- The value returned by the `response` getter: a buffer, blob, parsed JSON
value, decoded text string, or `undefined` (reading an absent field of a
present `computed` record). -/
inductive JsValue
  | undef
  | str (s : String)
  | buffer (bs : List Nat)
  | blobVal (bs : List Nat)
  | jsonVal (v : JsonValue)
deriving DecidableEq

/-- The `response` getter (lines 91-106).  It dereferences `computed` (a
`TypeError` when absent; in that case `responseType` is necessarily
`"text"`, so every path reads a field of `undefined`), switches on
`responseType`, lazily parses and caches the JSON value on first access
(`computed.json ??= JSON.parse(computed.text)`, a mutation of `#state`), and
throws `Error("Unimplemented.")` in the default case.  The result pairs the
returned value (or thrown error) with the possibly-updated state. -/
def responseGet (s : State) : Except JsError JsValue × State :=
  match s.computed with
  | none => (.error .typeError, s)
  | some c =>
    match c.type.getD .text with
    | .arraybuffer => (.ok ((c.buffer.map JsValue.buffer).getD .undef), s)
    | .blob => (.ok ((c.blob.map JsValue.blobVal).getD .undef), s)
    | .json =>
      match c.json with
      | some v => (.ok (.jsonVal v), s)
      | none =>
        match c.text with
        | none => (.error .syntaxError, s)
        | some t =>
          (.ok (.jsonVal (jsonParse t)),
           { s with computed := some { c with json := some (jsonParse t) } })
    | .text => (.ok ((c.text.map JsValue.str).getD .undef), s)
    | _ => (.error (.thrown "Unimplemented."), s)

/-- The `responseXML` getter (lines 132-134): always throws
`Error("Unimplemented.")`, leaving the state untouched. -/
def responseXML (s : State) : Except JsError Unit × State :=
  (.error (.thrown "Unimplemented."), s)

/-- The `status` getter (lines 136-138): `response!.status`. -/
def status (s : State) : Except JsError Nat :=
  match s.response with
  | none => .error .typeError
  | some r => .ok r.status

/-- The `statusText` getter (lines 140-142): `response!.statusText`. -/
def statusText (s : State) : Except JsError String :=
  match s.response with
  | none => .error .typeError
  | some r => .ok r.statusText

/-- The `getResponseHeader(name)` method (lines 167-169):
`response!.headers.get(name)` (case-insensitive lookup). -/
def getResponseHeader (s : State) (name : String) :
    Except JsError (Option String) :=
  match s.response with
  | none => .error .typeError
  | some r => .ok ((r.headers.find? (fun kv => kv.1.toLower = name.toLower)).map Prod.snd)

/-- One serialized header line of `getAllResponseHeaders`. -/
def headerLine (kv : String × String) : String :=
  kv.1 ++ ": " ++ kv.2

/-- The semantics of `Array.prototype.join("\r\n")`. -/
def joinCRLF : List String → String
  | [] => ""
  | [l] => l
  | l :: ls => l ++ "\r\n" ++ joinCRLF ls

/-- The `getAllResponseHeaders()` method (lines 171-175): serialize the
response's headers as `name: value` lines joined by CRLF, in the
collection's iteration order. -/
def getAllResponseHeaders (s : State) : Except JsError String :=
  match s.response with
  | none => .error .typeError
  | some r => .ok (joinCRLF (r.headers.map headerLine))

/-- The synchronous head of `send` after the fetch call was issued
(line 222): `this.#state.controller = controller` with a fresh, not yet
aborted controller. -/
def sendStart (s : State) : State :=
  { s with controller := some { aborted := false } }

/-- The timer callback (lines 181-185): `controller.abort()` (the stored
controller is the same object) then `ontimeout?.()`. -/
def timerFire (s : State) : State × List Event :=
  ({ s with controller := some { aborted := true } }, [.timeoutFired])

/-- The fetch resolution continuation up to `HEADERS_RECEIVED`
(lines 192-195): resume from the header-arrival suspension point,
`clearTimeout`, store the raw response, transition to `HEADERS_RECEIVED`. -/
def headersArrive (s : State) (r : ResponseData) : State × List Event :=
  ({ s with response := some r, readyState := 2 },
   .suspend .headerArrival :: .clearTimer :: setReadyStateEvents 2)

/-- The immediately following transition to `LOADING` (line 196), with no
suspension point before it. -/
def loadingStep (s : State) : State × List Event :=
  ({ s with readyState := 3 }, setReadyStateEvents 3)

/-- The body materialization chain and `DONE` transition (lines 202-214):
suspend for `res.blob()` and `blob.arrayBuffer()`, spread the
possibly-absent `computed` record and store the decoded text, buffer and
blob, default the declared type to `"text"` (`computed.type ??= "text"`),
transition to `DONE`, and invoke `onload`. -/
def bodyDone (s : State) (r : ResponseData) : State × List Event :=
  let c0 := s.computed.getD emptyComputed
  let c1 : Computed :=
    { c0 with text := some (textDecode r.body), buffer := some r.body, blob := some r.body }
  let c2 : Computed := { c1 with type := some (c1.type.getD .text) }
  ({ s with computed := some c2, readyState := 4 },
   .suspend .blobRead :: .suspend .bufferRead :: (setReadyStateEvents 4 ++ [.load]))

/-- The fetch rejection continuation (lines 217-221): resume from the
header-arrival suspension point, `clearTimeout`, and invoke `onerror` with
the failure detail. -/
def fetchReject (s : State) (e : String) : State × List Event :=
  (s, [.suspend .headerArrival, .clearTimer, .error e])

/-- The `send(body?)` method (lines 177-223) as a whole exchange.  With no
draft, evaluating `draft.url` for the fetch call throws a synchronous
`TypeError` to the caller (the already-scheduled stray timer of such a
failed call is not modelled).  Otherwise `send` returns at once and the
exchange proceeds: the timer races the fetch settlement (`timerFires`);
a fired timer aborts the controller, invokes `ontimeout`, and turns the
fetch into an abort-induced rejection; a resolution drives the
HEADERS_RECEIVED/LOADING/DONE chain; a rejection is caught and reported via
`onerror`.  The request body is forwarded to the external fetch and has no
further observable effect in this design. -/
def send (s : State) (_body : Option (List Nat)) (ex : Exchange) :
    Except JsError (State × List Event) :=
  match s.draft with
  | none => .error .typeError
  | some _ =>
    let s0 := sendStart s
    if timerFires s.timeout ex.completionTime then
      let p1 := timerFire s0
      let p2 := fetchReject p1.1 abortErrorDetail
      .ok (p2.1, .startTimer s.timeout :: .suspend .timerWait :: (p1.2 ++ p2.2))
    else
      match ex.outcome with
      | .failure e =>
        let p1 := fetchReject s0 e
        .ok (p1.1, .startTimer s.timeout :: p1.2)
      | .success r =>
        let p1 := headersArrive s0 r
        let p2 := loadingStep p1.1
        let p3 := bodyDone p2.1 r
        .ok (p3.1, .startTimer s.timeout :: (p1.2 ++ p2.2 ++ p3.2))

/-- The `abort()` method (lines 228-230): `controller!.abort()`. -/
def abortRequest (s : State) : Except JsError State :=
  match s.controller with
  | none => .error .typeError
  | some _ => .ok { s with controller := some { aborted := true } }

/-- A complete `open` followed by `send` on a fresh instance whose `timeout`
field was set to `tmo`, with the two event streams concatenated in delivery
order. -/
def openThenSend (m u : String) (tmo : Nat) (body : Option (List Nat))
    (ex : Exchange) : Except JsError (State × List Event) :=
  let s0 : State := { initState with timeout := tmo }
  let p1 := openRequest s0 m u
  match send p1.1 body ex with
  | .error e => .error e
  | .ok (s2, ev2) => .ok (s2, p1.2 ++ ev2)

/-- The ready states announced to `onreadystatechange`, in delivery order. -/
def rscList (ev : List Event) : List Nat :=
  ev.filterMap fun e =>
    match e with
    | .readyStateChange n => some n
    | _ => none

/-- One atomic step of an instance: a public method call, or one scheduled
continuation of an in-flight `send`.  The guards record the data each
continuation reads from the live objects it captured (the draft for the
fetch call, the controller for the timer, the resolved response for the
body chain). -/
inductive Step : State → State → Prop
  | openS (s : State) (m u : String) : Step s (openRequest s m u).1
  | setHeaderS (s s' : State) (n v : String) :
      setRequestHeader s n v = .ok s' → Step s s'
  | overrideS (s : State) (t : RespType) : Step s (overrideMimeType s t)
  | sendStartS (s : State) (d : Draft) : s.draft = some d → Step s (sendStart s)
  | timerFireS (s : State) (c : Controller) :
      s.controller = some c → Step s (timerFire s).1
  | headersArriveS (s : State) (c : Controller) (r : ResponseData) :
      s.controller = some c → Step s (headersArrive s r).1
  | loadingS (s : State) : s.readyState = 2 → Step s (loadingStep s).1
  | bodyDoneS (s : State) (r : ResponseData) :
      s.response = some r → Step s (bodyDone s r).1
  | fetchRejectS (s : State) (e : String) : Step s (fetchReject s e).1
  | readResponseS (s : State) : Step s (responseGet s).2
  | abortS (s : State) (s' : State) : abortRequest s = .ok s' → Step s s'

/-- States reachable from a freshly constructed instance. -/
def Reachable (s : State) : Prop :=
  Relation.ReflTransGen Step initState s

/-- The state invariant: a body materialization (decoded text, buffer or
blob) is only ever present once the raw response is present, and a ready
state of `OPENED` always comes with a draft. -/
def Inv (s : State) : Prop :=
  (∀ c, s.computed = some c →
    (c.text.isSome ∨ c.buffer.isSome ∨ c.blob.isSome) → s.response.isSome)
  ∧ (s.readyState = 1 → s.draft.isSome)

/-- The semantics of `String.prototype.split("\r\n")` on the character
list of a string, folding from the right: an empty input yields the single
empty segment, and each CRLF pair opens a new segment. -/
def splitStep (c : Char) (segs : List (List Char)) : List (List Char) :=
  match segs with
  | [] => [[c]]
  | seg :: rest =>
    if c = '\r' ∧ seg.head? = some '\n' then [] :: seg.tail :: rest
    else (c :: seg) :: rest

/-- Split a character list on CRLF separators. -/
def splitCRLF : List Char → List (List Char)
  | [] => [[]]
  | c :: cs => splitStep c (splitCRLF cs)

/-- Re-parse one serialized header line: the name is everything before the
first colon. -/
def parseName : List Char → List Char
  | [] => []
  | c :: rest => if c = ':' then [] else c :: parseName rest

/-- Drop the single space that `headerLine` writes after the colon. -/
def dropOneSpace : List Char → List Char
  | [] => []
  | c :: rest => if c = ' ' then rest else c :: rest

/-- Re-parse one serialized header line: the value is everything after the
first colon, with the following space removed. -/
def parseVal : List Char → List Char
  | [] => []
  | c :: rest => if c = ':' then dropOneSpace rest else parseVal rest

/-- Re-parse one `name: value` line. -/
def parseLine (l : List Char) : String × String :=
  (String.mk (parseName l), String.mk (parseVal l))

/-- Split a serialized header block on CRLF and re-parse every line. -/
def reparseHeaders (out : String) : List (String × String) :=
  (splitCRLF out.data).map parseLine

/-- Validity of one response header pair, as the external `Headers`
collection guarantees it: the name is a field token (no colon, no CR or
LF), the value holds no CR or LF. -/
def ValidHeader (kv : String × String) : Prop :=
  (':' ∉ kv.1.data) ∧ ('\r' ∉ kv.1.data) ∧ ('\n' ∉ kv.1.data)
  ∧ ('\r' ∉ kv.2.data) ∧ ('\n' ∉ kv.2.data)

instance (kv : String × String) : Decidable (ValidHeader kv) := by
  unfold ValidHeader
  infer_instance

/-- The value component of the `response` getter as a function of the
`computed` record alone (the getter's switch never reads any other part of
the state). -/
def responseVal (oc : Option Computed) : Except JsError JsValue :=
  match oc with
  | none => .error .typeError
  | some c =>
    match c.type.getD .text with
    | .arraybuffer => .ok ((c.buffer.map JsValue.buffer).getD .undef)
    | .blob => .ok ((c.blob.map JsValue.blobVal).getD .undef)
    | .json =>
      match c.json with
      | some v => .ok (.jsonVal v)
      | none =>
        match c.text with
        | none => .error .syntaxError
        | some t => .ok (.jsonVal (jsonParse t))
    | .text => .ok ((c.text.map JsValue.str).getD .undef)
    | _ => .error (.thrown "Unimplemented.")

/-- The state after a completed `send`, for building concrete scenarios. -/
def afterSendOk (s : State) (ex : Exchange) : State :=
  match send s none ex with
  | .ok p => p.1
  | .error _ => s

/-- A sample raw response used by concrete scenarios (body `"hello"`). -/
def sampleResponse : ResponseData :=
  { status := 200, statusText := "OK", url := "https://example.test/x",
    headers := [("content-type", "text/plain")], body := [104, 101, 108, 108, 111] }

/-- A sample draft used by concrete scenarios. -/
def sampleDraft : Draft :=
  { method := "GET", url := "https://example.test/x", headers := [] }

/-- An opened instance with `timeout` set to 3 milliseconds. -/
def openedState3 : State :=
  { initState with
      draft := some sampleDraft,
      readyState := 1,
      timeout := 3 }

/-- A computed record with declared type `"json"` and decoded text `"1"`,
no cached JSON value yet. -/
def jsonComputed : Computed :=
  { type := some .json, blob := none, text := some "1", buffer := none, json := none }

/-- A state holding `jsonComputed`. -/
def jsonState : State := { initState with computed := some jsonComputed }

/-- A response whose body decodes to `"1"`. -/
def jsonBody1 : ResponseData :=
  { status := 200, statusText := "OK", url := "u", headers := [], body := [49] }

/-- A response whose body decodes to `"2"`. -/
def jsonBody2 : ResponseData :=
  { status := 200, statusText := "OK", url := "u", headers := [], body := [50] }

/-- Exchange 1 with declared type json and body `"1"`, after the first read
of `response` cached the parsed value. -/
def c4StateA : State :=
  (responseGet (afterSendOk (overrideMimeType (openRequest initState "GET" "u").1 .json)
    ⟨5, .success jsonBody1⟩)).2

/-- Exchange with body `"2"` and a cached JSON read, followed by a second
`open` and a completed second exchange with body `"1"`: the decoded text is
now `"1"` but the JSON cache still holds the parse of `"2"`. -/
def c4StateB : State :=
  afterSendOk
    ((openRequest
      (responseGet (afterSendOk (overrideMimeType (openRequest initState "GET" "u").1 .json)
        ⟨5, .success jsonBody2⟩)).2
      "GET" "u").1)
    ⟨5, .success jsonBody1⟩

/-- A response carrying two headers, one of whose values itself contains a
colon. -/
def twoHeaderResponse : ResponseData :=
  { status := 200, statusText := "OK", url := "u",
    headers := [("content-type", "text/plain"), ("x-a", "b: c")], body := [] }

/-- A state holding `twoHeaderResponse`. -/
def twoHeaderState : State := { initState with response := some twoHeaderResponse }

/-- A response with an empty header collection. -/
def emptyHeaderResponse : ResponseData :=
  { status := 204, statusText := "No Content", url := "u", headers := [], body := [] }

/-- A state holding `emptyHeaderResponse`. -/
def emptyHeaderState : State := { initState with response := some emptyHeaderResponse }

/-- A freshly opened instance. -/
def s1w : State := (openRequest initState "GET" "u").1

/-- The opened instance after `send` issued the fetch. -/
def s2w : State := sendStart s1w

/-- The in-flight instance after headers arrived. -/
def s3w : State := (headersArrive s2w sampleResponse).1

/-- A computed record whose declared type `"document"` is unimplemented. -/
def docComputed : Computed :=
  { type := some .document, blob := some [], text := some "", buffer := some [],
    json := none }

/-- A state holding `docComputed`. -/
def docState : State := { initState with computed := some docComputed }

/-- A first response with status 200 and one header. -/
def c10Resp1 : ResponseData :=
  { status := 200, statusText := "OK", url := "u", headers := [("a", "b")], body := [104] }

/-- A second response with status 404 and no headers. -/
def c10Resp2 : ResponseData :=
  { status := 404, statusText := "Not Found", url := "u", headers := [], body := [] }

/-- A completed first exchange (ready state DONE). -/
def c10Done : State :=
  afterSendOk (openRequest initState "GET" "u").1 ⟨5, .success c10Resp1⟩

/-- The instance reopened after the completed exchange. -/
def c10Reopened : State := (openRequest c10Done "GET" "u").1

/-- The reopened instance after the second exchange reached
HEADERS_RECEIVED but not DONE. -/
def c10Mid : State := (headersArrive (sendStart c10Reopened) c10Resp2).1

theorem inv_init : Inv initState := by
  constructor
  · intro c hc
    simp [initState] at hc
  · intro h
    simp [initState] at h

/-- The `response` getter either leaves the state untouched, or (first read
with declared type `"json"` and a decoded text present) caches the parsed
JSON value and changes nothing else. -/
theorem responseGet_state (s : State) :
    (responseGet s).2 = s ∨
    ∃ c t, s.computed = some c ∧ c.text = some t ∧ c.json = none ∧
      (responseGet s).2 = { s with computed := some { c with json := some (jsonParse t) } } := by
  cases hsc : s.computed with
  | none => left; simp [responseGet, hsc]
  | some c =>
    cases hty : c.type with
    | none => left; simp [responseGet, hsc, hty]
    | some rt =>
      cases rt with
      | arraybuffer => left; simp [responseGet, hsc, hty]
      | blob => left; simp [responseGet, hsc, hty]
      | text => left; simp [responseGet, hsc, hty]
      | empty => left; simp [responseGet, hsc, hty]
      | document => left; simp [responseGet, hsc, hty]
      | json =>
        cases hj : c.json with
        | some v => left; simp [responseGet, hsc, hty, hj]
        | none =>
          cases htx : c.text with
          | none => left; simp [responseGet, hsc, hty, hj, htx]
          | some t =>
            right
            exact ⟨c, t, rfl, htx, hj, by simp [responseGet, hsc, hty, hj, htx]⟩

theorem inv_step {s s' : State} (hstep : Step s s') (ih : Inv s) : Inv s' := by
  cases hstep with
  | openS m u =>
    exact ⟨fun c hc hb => ih.1 c hc hb, fun _ => rfl⟩
  | setHeaderS s' n v hset =>
    unfold setRequestHeader at hset
    split at hset
    · cases hd : s.draft with
      | none => rw [hd] at hset; exact absurd hset (by simp)
      | some d =>
        rw [hd] at hset
        cases hset
        exact ⟨fun c hc hb => ih.1 c hc hb, fun _ => rfl⟩
    · cases hset
      exact ih
  | overrideS t =>
    refine ⟨?_, fun h => ih.2 h⟩
    intro c hc hb
    cases hsc : s.computed with
    | none =>
      simp only [overrideMimeType, hsc, Option.getD_none, emptyComputed,
        Option.some.injEq] at hc
      rw [← hc] at hb
      simp at hb
    | some c0 =>
      simp only [overrideMimeType, hsc, Option.getD_some, Option.some.injEq] at hc
      rw [← hc] at hb
      exact ih.1 c0 hsc hb
  | sendStartS d hd => exact ⟨fun c hc hb => ih.1 c hc hb, fun h => ih.2 h⟩
  | timerFireS c hc => exact ⟨fun c hc hb => ih.1 c hc hb, fun h => ih.2 h⟩
  | headersArriveS c r hc =>
    refine ⟨fun c hc hb => rfl, fun h => ?_⟩
    simp [headersArrive] at h
  | loadingS h2 =>
    refine ⟨fun c hc hb => ih.1 c hc hb, fun h => ?_⟩
    simp [loadingStep] at h
  | bodyDoneS r hr =>
    refine ⟨fun c hc hb => ?_, fun h => ?_⟩
    · show s.response.isSome = true
      rw [hr]; rfl
    · simp [bodyDone] at h
  | fetchRejectS e => exact ih
  | readResponseS =>
    rcases responseGet_state s with h | ⟨c, t, hsc, htx, hj, h⟩
    · rw [h]; exact ih
    · rw [h]
      refine ⟨?_, fun hr => ih.2 hr⟩
      intro c' hc' hb
      simp only [Option.some.injEq] at hc'
      exact ih.1 c hsc (Or.inl (by simp [htx]))
  | abortS s' hab =>
    unfold abortRequest at hab
    cases hc : s.controller with
    | none => rw [hc] at hab; exact absurd hab (by simp)
    | some c0 =>
      rw [hc] at hab
      cases hab
      exact ⟨fun c hc hb => ih.1 c hc hb, fun h => ih.2 h⟩

/-- Every reachable state satisfies the state invariant. -/
theorem reachable_inv {s : State} (h : Reachable s) : Inv s := by
  induction h with
  | refl => exact inv_init
  | tail _ hstep ih => exact inv_step hstep ih

theorem splitCRLF_ne_nil (l : List Char) : splitCRLF l ≠ [] := by
  induction l with
  | nil => simp [splitCRLF]
  | cons c cs ih =>
    cases h : splitCRLF cs with
    | nil => exact absurd h ih
    | cons seg rest =>
      simp only [splitCRLF, splitStep, h]
      split <;> simp

theorem splitCRLF_no_cr (l : List Char) (h : '\r' ∉ l) : splitCRLF l = [l] := by
  induction l with
  | nil => rfl
  | cons c cs ih =>
    have hc : c ≠ '\r' := fun hh => h (by simp [hh])
    have hcs : '\r' ∉ cs := fun hh => h (List.mem_cons_of_mem _ hh)
    simp [splitCRLF, ih hcs, splitStep, hc]

theorem splitCRLF_append (l rest : List Char) (h : '\r' ∉ l) :
    splitCRLF (l ++ '\r' :: '\n' :: rest) = l :: splitCRLF rest := by
  induction l with
  | nil =>
    have h1 : ('\n' : Char) ≠ '\r' := by decide
    cases hx : splitCRLF rest with
    | nil => exact absurd hx (splitCRLF_ne_nil rest)
    | cons seg segs =>
      simp [splitCRLF, splitStep, hx, h1]
  | cons c cs ih =>
    have hc : c ≠ '\r' := fun hh => h (by simp [hh])
    have hcs : '\r' ∉ cs := fun hh => h (List.mem_cons_of_mem _ hh)
    simp [splitCRLF, ih hcs, splitStep, hc]

theorem parseName_roundtrip (k v : List Char) (hk : ':' ∉ k) :
    parseName (k ++ ':' :: ' ' :: v) = k := by
  induction k with
  | nil => simp [parseName]
  | cons c cs ih =>
    have hc : c ≠ ':' := fun hh => hk (by simp [hh])
    have hcs : ':' ∉ cs := fun hh => hk (List.mem_cons_of_mem _ hh)
    simp [parseName, hc, ih hcs]

theorem parseVal_roundtrip (k v : List Char) (hk : ':' ∉ k) :
    parseVal (k ++ ':' :: ' ' :: v) = v := by
  induction k with
  | nil => simp [parseVal, dropOneSpace]
  | cons c cs ih =>
    have hc : c ≠ ':' := fun hh => hk (by simp [hh])
    have hcs : ':' ∉ cs := fun hh => hk (List.mem_cons_of_mem _ hh)
    simp [parseVal, hc, ih hcs]

theorem headerLine_data (kv : String × String) :
    (headerLine kv).data = kv.1.data ++ ':' :: ' ' :: kv.2.data := by
  show (kv.1 ++ ": " ++ kv.2).data = _
  rw [String.data_append, String.data_append, List.append_assoc]
  rfl

theorem parseLine_headerLine (kv : String × String) (hk : ':' ∉ kv.1.data) :
    parseLine (headerLine kv).data = kv := by
  unfold parseLine
  rw [headerLine_data, parseName_roundtrip _ _ hk, parseVal_roundtrip _ _ hk]

/-- Splitting a CRLF-joined block of valid, CR-free lines recovers exactly
the lines. -/
theorem splitCRLF_joinCRLF (ls : List String)
    (hne : ls ≠ []) (hcr : ∀ l ∈ ls, '\r' ∉ l.data) :
    splitCRLF (joinCRLF ls).data = ls.map String.data := by
  induction ls with
  | nil => exact absurd rfl hne
  | cons l ls ih =>
    cases ls with
    | nil =>
      show splitCRLF l.data = [l.data]
      exact splitCRLF_no_cr l.data (hcr l (by simp))
    | cons l2 ls2 =>
      show splitCRLF (l ++ "\r\n" ++ joinCRLF (l2 :: ls2)).data = _
      rw [String.data_append, String.data_append]
      have hstep : (("\r\n" : String).data : List Char) = ['\r', '\n'] := rfl
      rw [hstep]
      have : l.data ++ ['\r', '\n'] ++ (joinCRLF (l2 :: ls2)).data
          = l.data ++ '\r' :: '\n' :: (joinCRLF (l2 :: ls2)).data := by simp
      rw [this, splitCRLF_append _ _ (hcr l (by simp))]
      rw [ih (by simp) (fun x hx => hcr x (List.mem_cons_of_mem _ hx))]
      rfl

theorem send_timerCase (s : State) (d : Draft) (body : Option (List Nat))
    (ex : Exchange) (hd : s.draft = some d)
    (ht : timerFires s.timeout ex.completionTime = true) :
    send s body ex = .ok ({ s with controller := some { aborted := true } },
      [.startTimer s.timeout, .suspend .timerWait, .timeoutFired,
       .suspend .headerArrival, .clearTimer, .error abortErrorDetail]) := by
  simp [send, hd, ht, timerFire, fetchReject, sendStart]

theorem send_failureCase (s : State) (d : Draft) (body : Option (List Nat))
    (ex : Exchange) (e : String) (hd : s.draft = some d)
    (hnt : timerFires s.timeout ex.completionTime = false)
    (hf : ex.outcome = .failure e) :
    send s body ex = .ok ({ s with controller := some { aborted := false } },
      [.startTimer s.timeout, .suspend .headerArrival, .clearTimer, .error e]) := by
  simp [send, hd, hnt, hf, fetchReject, sendStart]

theorem send_successCase (s : State) (d : Draft) (body : Option (List Nat))
    (ex : Exchange) (r : ResponseData) (hd : s.draft = some d)
    (hnt : timerFires s.timeout ex.completionTime = false)
    (hs : ex.outcome = .success r) :
    send s body ex = .ok
      ({ s with
          controller := some { aborted := false },
          response := some r,
          readyState := 4,
          computed := some
            { type := some ((s.computed.getD emptyComputed).type.getD .text),
              blob := some r.body,
              text := some (textDecode r.body),
              buffer := some r.body,
              json := (s.computed.getD emptyComputed).json } },
       [.startTimer s.timeout, .suspend .headerArrival, .clearTimer,
        .readyStateChange 2, .readyStateChange 3, .suspend .blobRead,
        .suspend .bufferRead, .readyStateChange 4, .load]) := by
  simp [send, hd, hnt, hs, headersArrive, loadingStep, bodyDone, sendStart,
    setReadyStateEvents]

theorem openThenSend_success (m u : String) (tmo : Nat) (body : Option (List Nat))
    (ex : Exchange) (r : ResponseData)
    (hnt : timerFires tmo ex.completionTime = false)
    (hs : ex.outcome = .success r) :
    openThenSend m u tmo body ex = .ok
      ({ readyState := 4,
         draft := some { method := m, url := u, headers := [] },
         computed := some { type := some .text, blob := some r.body,
                            text := some (textDecode r.body), buffer := some r.body,
                            json := none },
         controller := some { aborted := false },
         response := some r, timeout := tmo },
       [.readyStateChange 1, .startTimer tmo, .suspend .headerArrival, .clearTimer,
        .readyStateChange 2, .readyStateChange 3, .suspend .blobRead,
        .suspend .bufferRead, .readyStateChange 4, .load]) := by
  simp [openThenSend, openRequest, send, initState, hnt, hs, headersArrive,
    loadingStep, bodyDone, sendStart, setReadyStateEvents, emptyComputed]

theorem responseGet_fst (s : State) : (responseGet s).1 = responseVal s.computed := by
  cases hsc : s.computed with
  | none => simp [responseGet, responseVal, hsc]
  | some c =>
    cases hty : c.type with
    | none => simp [responseGet, responseVal, hsc, hty]
    | some rt =>
      cases rt with
      | arraybuffer => simp [responseGet, responseVal, hsc, hty]
      | blob => simp [responseGet, responseVal, hsc, hty]
      | text => simp [responseGet, responseVal, hsc, hty]
      | empty => simp [responseGet, responseVal, hsc, hty]
      | document => simp [responseGet, responseVal, hsc, hty]
      | json =>
        cases hj : c.json with
        | some v => simp [responseGet, responseVal, hsc, hty, hj]
        | none =>
          cases htx : c.text with
          | none => simp [responseGet, responseVal, hsc, hty, hj, htx]
          | some t => simp [responseGet, responseVal, hsc, hty, hj, htx]

theorem reach_s1w : Reachable s1w :=
  Relation.ReflTransGen.single (Step.openS initState "GET" "u")

theorem reach_s3w : Reachable s3w :=
  (reach_s1w.tail (Step.sendStartS s1w ⟨"GET", "u", []⟩ rfl)).tail
    (Step.headersArriveS s2w ⟨false⟩ sampleResponse rfl)

/-- C1: for any `open` followed by `send` whose exchange succeeds (the timer
does not fire and the fetch resolves), the ready-state-change callback is
invoked exactly once per transition, in the order OPENED, HEADERS_RECEIVED,
LOADING, DONE, and the HEADERS_RECEIVED and LOADING invocations are adjacent
in the delivered event stream — nothing, in particular no suspension point,
between them — with both strictly before DONE. -/
theorem c1_readyStateOrder (m u : String) (tmo : Nat) (body : Option (List Nat))
    (ex : Exchange) (r : ResponseData)
    (hnt : timerFires tmo ex.completionTime = false)
    (hs : ex.outcome = .success r) :
    ∃ sf ev, openThenSend m u tmo body ex = .ok (sf, ev)
      ∧ rscList ev = [1, 2, 3, 4]
      ∧ ∃ pre post,
          ev = pre ++ [Event.readyStateChange 2, Event.readyStateChange 3] ++ post := by
  refine ⟨_, _, openThenSend_success m u tmo body ex r hnt hs, rfl, ?_⟩
  exact ⟨[.readyStateChange 1, .startTimer tmo, .suspend .headerArrival, .clearTimer],
         [.suspend .blobRead, .suspend .bufferRead, .readyStateChange 4, .load], rfl⟩

theorem c1_witness :
    timerFires 0 5 = false ∧
    ∃ sf ev, openThenSend "GET" "https://example.test/x" 0 none
        ⟨5, .success sampleResponse⟩ = .ok (sf, ev)
      ∧ rscList ev = [1, 2, 3, 4]
      ∧ ∃ pre post,
          ev = pre ++ [Event.readyStateChange 2, Event.readyStateChange 3] ++ post :=
  ⟨by decide, c1_readyStateOrder "GET" "https://example.test/x" 0 none
    ⟨5, .success sampleResponse⟩ sampleResponse (by decide) rfl⟩

/-- C2: for a `send` issued with a draft present, a positive `timeout`
smaller than the exchange's completion time makes `ontimeout` fire and
aborts the in-flight exchange through the cancellation handle, while a
`timeout` of 0 never fires regardless of how long the exchange takes. -/
theorem c2_timeout (s : State) (d : Draft) (body : Option (List Nat)) (ex : Exchange)
    (hd : s.draft = some d) :
    (0 < s.timeout → s.timeout < ex.completionTime →
      ∃ sf ev, send s body ex = .ok (sf, ev) ∧ Event.timeoutFired ∈ ev
        ∧ sf.controller = some { aborted := true })
    ∧ (s.timeout = 0 →
      ∃ sf ev, send s body ex = .ok (sf, ev) ∧ Event.timeoutFired ∉ ev) := by
  constructor
  · intro h1 h2
    have ht : timerFires s.timeout ex.completionTime = true := by
      simp [timerFires]
      exact ⟨h1, h2⟩
    exact ⟨_, _, send_timerCase s d body ex hd ht, by simp, rfl⟩
  · intro h0
    have hnt : timerFires s.timeout ex.completionTime = false := by
      simp [timerFires, h0]
    cases hs : ex.outcome with
    | success r => exact ⟨_, _, send_successCase s d body ex r hd hnt hs, by simp⟩
    | failure e => exact ⟨_, _, send_failureCase s d body ex e hd hnt hs, by simp⟩

theorem c2_witness :
    openedState3.draft = some sampleDraft
    ∧ ((0 < openedState3.timeout → openedState3.timeout < 5 →
      ∃ sf ev, send openedState3 none ⟨5, .failure "boom"⟩ = .ok (sf, ev)
        ∧ Event.timeoutFired ∈ ev ∧ sf.controller = some { aborted := true })
    ∧ (openedState3.timeout = 0 →
      ∃ sf ev, send openedState3 none ⟨5, .failure "boom"⟩ = .ok (sf, ev)
        ∧ Event.timeoutFired ∉ ev)) :=
  ⟨rfl, c2_timeout openedState3 sampleDraft none ⟨5, .failure "boom"⟩ rfl⟩

/-- C3: when `responseType` is never explicitly set it reads `"text"` on a
fresh instance, after `open`, and after a successful exchange; after DONE,
`responseText` is the received body bytes decoded as text and the `response`
getter returns that same string without touching the state. -/
theorem c3_defaultText (m u : String) (tmo : Nat) (body : Option (List Nat))
    (ex : Exchange) (r : ResponseData)
    (hnt : timerFires tmo ex.completionTime = false)
    (hs : ex.outcome = .success r) :
    responseType initState = .text
    ∧ responseType (openRequest { initState with timeout := tmo } m u).1 = .text
    ∧ ∃ sf ev, openThenSend m u tmo body ex = .ok (sf, ev)
        ∧ responseType sf = .text
        ∧ responseText sf = some (textDecode r.body)
        ∧ responseGet sf = (.ok (.str (textDecode r.body)), sf) := by
  refine ⟨rfl, rfl, _, _, openThenSend_success m u tmo body ex r hnt hs, rfl, rfl, ?_⟩
  simp [responseGet]

theorem c3_witness :
    timerFires 0 5 = false ∧
    (responseType initState = .text
    ∧ responseType (openRequest { initState with timeout := 0 }
        "GET" "https://example.test/x").1 = .text
    ∧ ∃ sf ev, openThenSend "GET" "https://example.test/x" 0 none
          ⟨5, .success sampleResponse⟩ = .ok (sf, ev)
        ∧ responseType sf = .text
        ∧ responseText sf = some (textDecode sampleResponse.body)
        ∧ responseGet sf = (.ok (.str (textDecode sampleResponse.body)), sf)) :=
  ⟨by decide, c3_defaultText "GET" "https://example.test/x" 0 none
    ⟨5, .success sampleResponse⟩ sampleResponse (by decide) rfl⟩

/-- C4 (amended): for a state whose computed record declares type `"json"`
and holds a decoded text, reading `response` yields a JSON value and a state
from which a second read returns the identical value without further state
change (the parse happens at most once and is cached); when no JSON value
was cached yet, the value is exactly the parse of the decoded text.  (The
unamended determinism-in-the-text conjunct fails: see the counterexample,
where a cache survives into a later exchange.) -/
theorem c4_jsonCache (s : State) (c : Computed) (t : String)
    (hc : s.computed = some c) (hty : c.type = some .json) (htx : c.text = some t) :
    ∃ v sf, responseGet s = (.ok (.jsonVal v), sf)
      ∧ responseGet sf = (.ok (.jsonVal v), sf)
      ∧ (c.json = none → v = jsonParse t) := by
  cases hj : c.json with
  | some v =>
    refine ⟨v, s, ?_, ?_, by simp [hj]⟩ <;> simp [responseGet, hc, hty, hj]
  | none =>
    refine ⟨jsonParse t, { s with computed := some { c with json := some (jsonParse t) } },
      ?_, ?_, fun _ => rfl⟩
    · simp [responseGet, hc, hty, hj, htx]
    · simp [responseGet, hc, hty, hj, htx]

theorem c4_witness :
    jsonState.computed = some jsonComputed
    ∧ jsonComputed.type = some .json
    ∧ jsonComputed.text = some "1"
    ∧ ∃ v sf, responseGet jsonState = (.ok (.jsonVal v), sf)
        ∧ responseGet sf = (.ok (.jsonVal v), sf)
        ∧ (jsonComputed.json = none → v = jsonParse "1") :=
  ⟨rfl, rfl, rfl, c4_jsonCache jsonState jsonComputed "1" rfl rfl rfl⟩

/-- C4 counterexample: two states reached after DONE with declared type
`"json"` and the same decoded text `"1"` whose `response` reads differ — in
the second state the cached parse of an earlier exchange's text `"2"` is
served — so the returned JSON value is not a function of the decoded
text. -/
theorem c4_counterexample :
    responseText c4StateA = responseText c4StateB
    ∧ responseType c4StateA = .json
    ∧ responseType c4StateB = .json
    ∧ (responseGet c4StateA).1 = .ok (.jsonVal (jsonParse "1"))
    ∧ (responseGet c4StateB).1 = .ok (.jsonVal (jsonParse "2"))
    ∧ jsonParse "1" ≠ jsonParse "2" := by
  refine ⟨rfl, rfl, rfl, rfl, rfl, by decide⟩

/-- C5 (amended): for every response with at least one header (header names
and values being colon- and CRLF-free, as the external `Headers` collection
guarantees), `getAllResponseHeaders` serializes one `name: value` line per
header joined by CRLF in iteration order, and splitting the output on CRLF
and re-parsing each line reproduces exactly the header pairs.  (For a
header-less response the output is `""`, whose CRLF-split is the single
empty line, not zero headers: see the counterexample.) -/
theorem c5_headerRoundTrip (s : State) (r : ResponseData)
    (hr : s.response = some r) (hne : r.headers ≠ [])
    (hv : ∀ kv ∈ r.headers, ValidHeader kv) :
    ∃ out, getAllResponseHeaders s = .ok out
      ∧ reparseHeaders out = r.headers := by
  have hlines : ∀ l ∈ r.headers.map headerLine, '\r' ∉ l.data := by
    intro l hl
    rcases List.mem_map.mp hl with ⟨kv, hkv, rfl⟩
    rw [headerLine_data]
    intro hmem
    simp only [List.mem_append, List.mem_cons] at hmem
    rcases hmem with h1 | h1 | h1 | h1
    · exact (hv kv hkv).2.1 h1
    · exact absurd h1 (by decide)
    · exact absurd h1 (by decide)
    · exact (hv kv hkv).2.2.2.1 h1
  refine ⟨joinCRLF (r.headers.map headerLine), by simp [getAllResponseHeaders, hr], ?_⟩
  unfold reparseHeaders
  rw [splitCRLF_joinCRLF _ (by simpa using hne) hlines, List.map_map, List.map_map]
  calc r.headers.map ((parseLine ∘ String.data) ∘ headerLine)
      = r.headers.map id :=
        List.map_congr_left (fun kv hkv => parseLine_headerLine kv (hv kv hkv).1)
    _ = r.headers := List.map_id _

theorem c5_witness :
    twoHeaderState.response = some twoHeaderResponse
    ∧ twoHeaderResponse.headers ≠ []
    ∧ (∀ kv ∈ twoHeaderResponse.headers, ValidHeader kv)
    ∧ ∃ out, getAllResponseHeaders twoHeaderState = .ok out
        ∧ reparseHeaders out = twoHeaderResponse.headers :=
  ⟨rfl, by decide, by decide,
   c5_headerRoundTrip twoHeaderState twoHeaderResponse rfl (by decide) (by decide)⟩

/-- C5 counterexample: on a response whose header collection is empty,
`getAllResponseHeaders` returns `""`, and splitting that on CRLF and
re-parsing yields one empty `name: value` pair rather than reproducing the
empty header collection. -/
theorem c5_counterexample :
    getAllResponseHeaders emptyHeaderState = .ok ""
    ∧ reparseHeaders "" = [("", "")]
    ∧ reparseHeaders "" ≠ emptyHeaderResponse.headers :=
  ⟨rfl, by decide, by decide⟩

/-- C6 (amended): in every reachable state the body materializations
(decoded text, buffer, blob) are present only once the raw response is
present, and at the DONE transition the body materializations are completed
together with the (already stored) response; the computed record itself,
however, can be created by `overrideMimeType` with only its declared type
while the response is still absent (see the counterexample). -/
theorem c6_invariant (s : State) (h : Reachable s) :
    (∀ c, s.computed = some c →
      (c.text.isSome ∨ c.buffer.isSome ∨ c.blob.isSome) → s.response.isSome)
    ∧ (∀ r, s.response = some r →
        ((bodyDone s r).1.response = some r
          ∧ ∃ c, (bodyDone s r).1.computed = some c
              ∧ c.text.isSome ∧ c.buffer.isSome ∧ c.blob.isSome)) := by
  refine ⟨(reachable_inv h).1, ?_⟩
  intro r hr
  exact ⟨by simp [bodyDone, hr], _, rfl, rfl, rfl, rfl⟩

theorem c6_witness :
    (∀ c, s3w.computed = some c →
      (c.text.isSome ∨ c.buffer.isSome ∨ c.blob.isSome) → s3w.response.isSome)
    ∧ (∀ r, s3w.response = some r →
        ((bodyDone s3w r).1.response = some r
          ∧ ∃ c, (bodyDone s3w r).1.computed = some c
              ∧ c.text.isSome ∧ c.buffer.isSome ∧ c.blob.isSome)) :=
  c6_invariant s3w reach_s3w

/-- C6 counterexample: `overrideMimeType` on a fresh instance creates
computed state while the raw response is still absent, refuting the claim
that no operation creates computed state before the response is
populated. -/
theorem c6_counterexample :
    (overrideMimeType initState .json).computed ≠ none
    ∧ (overrideMimeType initState .json).response = none := ⟨by decide, rfl⟩

/-- C7 (amended): for every `send` issued with a draft present (i.e. after
`open`), no error is thrown synchronously — `send` returns a result — and
every failure of the exchange is delivered exclusively through the `onerror`
callback carrying the failure detail, with the timer cleared before it: a
network rejection reports its own detail, and a timeout-aborted exchange
reports the abort rejection.  (Without the draft precondition `send` throws
synchronously: see the counterexample.) -/
theorem c7_noThrow (s : State) (d : Draft) (body : Option (List Nat)) (ex : Exchange)
    (hd : s.draft = some d) :
    (∃ p, send s body ex = .ok p)
    ∧ (∀ e, timerFires s.timeout ex.completionTime = false → ex.outcome = .failure e →
        send s body ex = .ok ({ s with controller := some { aborted := false } },
          [.startTimer s.timeout, .suspend .headerArrival, .clearTimer, .error e]))
    ∧ (timerFires s.timeout ex.completionTime = true →
        send s body ex = .ok ({ s with controller := some { aborted := true } },
          [.startTimer s.timeout, .suspend .timerWait, .timeoutFired,
           .suspend .headerArrival, .clearTimer, .error abortErrorDetail])) := by
  refine ⟨?_, ?_, ?_⟩
  · cases hb : timerFires s.timeout ex.completionTime with
    | true => exact ⟨_, send_timerCase s d body ex hd hb⟩
    | false =>
      cases hs : ex.outcome with
      | success r => exact ⟨_, send_successCase s d body ex r hd hb hs⟩
      | failure e => exact ⟨_, send_failureCase s d body ex e hd hb hs⟩
  · intro e hnt hf
    exact send_failureCase s d body ex e hd hnt hf
  · intro ht
    exact send_timerCase s d body ex hd ht

theorem c7_witness :
    openedState3.draft = some sampleDraft
    ∧ ((∃ p, send openedState3 none ⟨2, .failure "boom"⟩ = .ok p)
      ∧ (∀ e, timerFires openedState3.timeout
            (Exchange.mk 2 (.failure "boom")).completionTime = false →
          (Exchange.mk 2 (.failure "boom")).outcome = .failure e →
          send openedState3 none ⟨2, .failure "boom"⟩ =
            .ok ({ openedState3 with controller := some { aborted := false } },
              [.startTimer openedState3.timeout, .suspend .headerArrival,
               .clearTimer, .error e]))
      ∧ (timerFires openedState3.timeout
            (Exchange.mk 2 (.failure "boom")).completionTime = true →
          send openedState3 none ⟨2, .failure "boom"⟩ =
            .ok ({ openedState3 with controller := some { aborted := true } },
              [.startTimer openedState3.timeout, .suspend .timerWait, .timeoutFired,
               .suspend .headerArrival, .clearTimer, .error abortErrorDetail]))) :=
  ⟨rfl, c7_noThrow openedState3 sampleDraft none ⟨2, .failure "boom"⟩ rfl⟩

/-- C7 counterexample: calling `send` before any `open` (no draft) throws a
synchronous `TypeError` to the caller, so the unqualified "for every call to
send, no error is thrown synchronously" is false. -/
theorem c7_counterexample :
    send initState none { completionTime := 5, outcome := .failure "network error" } =
      .error .typeError := rfl

/-- C8: on every reachable state, `setRequestHeader` outside ready state
OPENED is a silent no-op — no error and the entire instance state unchanged
— while at OPENED it upserts the pair into the draft's header collection
and changes nothing else. -/
theorem c8_setRequestHeader (s : State) (n v : String) (h : Reachable s) :
    (s.readyState ≠ 1 → setRequestHeader s n v = .ok s)
    ∧ (s.readyState = 1 → ∃ d, s.draft = some d ∧
        setRequestHeader s n v =
          .ok { s with draft := some { d with headers := headersSet d.headers n v } }) := by
  constructor
  · intro hne
    unfold setRequestHeader
    rw [if_neg hne]
  · intro h1
    have hd := (reachable_inv h).2 h1
    cases hds : s.draft with
    | none => rw [hds] at hd; simp at hd
    | some d =>
      refine ⟨d, rfl, ?_⟩
      unfold setRequestHeader
      rw [if_pos h1, hds]

theorem c8_witness :
    (s1w.readyState ≠ 1 → setRequestHeader s1w "Accept" "text/html" = .ok s1w)
    ∧ (s1w.readyState = 1 → ∃ d, s1w.draft = some d ∧
        setRequestHeader s1w "Accept" "text/html" =
          .ok { s1w with
                draft := some { d with headers := headersSet d.headers "Accept" "text/html" } }) :=
  c8_setRequestHeader s1w "Accept" "text/html" reach_s1w

/-- C9: with the body materializations populated (after completion), the
`response` getter returns the binary buffer for declared type
`"arraybuffer"`, the blob for `"blob"`, the cached-or-parsed JSON value for
`"json"`, and the decoded text for `"text"`; for the other declared types
(`"document"`, `""`) it throws `Error("Unimplemented.")`, and `responseXML`
always throws `Error("Unimplemented.")`, both leaving the state
unchanged. -/
theorem c9_responseCoercion (s : State) (c : Computed) (bf bl : List Nat) (tx : String)
    (hc : s.computed = some c) (hbf : c.buffer = some bf) (hbl : c.blob = some bl)
    (htx : c.text = some tx) :
    (c.type = some .arraybuffer → responseGet s = (.ok (.buffer bf), s))
    ∧ (c.type = some .blob → responseGet s = (.ok (.blobVal bl), s))
    ∧ (c.type = some .json →
        (responseGet s).1 = .ok (.jsonVal (c.json.getD (jsonParse tx))))
    ∧ (c.type = some .text → responseGet s = (.ok (.str tx), s))
    ∧ (c.type = some .document ∨ c.type = some .empty →
        responseGet s = (.error (.thrown "Unimplemented."), s))
    ∧ responseXML s = (.error (.thrown "Unimplemented."), s) := by
  refine ⟨?_, ?_, ?_, ?_, ?_, rfl⟩
  · intro hty; simp [responseGet, hc, hty, hbf]
  · intro hty; simp [responseGet, hc, hty, hbl]
  · intro hty
    cases hj : c.json with
    | some v => simp [responseGet, hc, hty, hj]
    | none => simp [responseGet, hc, hty, hj, htx]
  · intro hty; simp [responseGet, hc, hty, htx]
  · rintro (hty | hty) <;> simp [responseGet, hc, hty]

theorem c9_witness :
    docState.computed = some docComputed
    ∧ docComputed.buffer = some []
    ∧ docComputed.blob = some []
    ∧ docComputed.text = some ""
    ∧ ((docComputed.type = some .arraybuffer →
          responseGet docState = (.ok (.buffer []), docState))
      ∧ (docComputed.type = some .blob →
          responseGet docState = (.ok (.blobVal []), docState))
      ∧ (docComputed.type = some .json →
          (responseGet docState).1 = .ok (.jsonVal (docComputed.json.getD (jsonParse ""))))
      ∧ (docComputed.type = some .text → responseGet docState = (.ok (.str ""), docState))
      ∧ (docComputed.type = some .document ∨ docComputed.type = some .empty →
          responseGet docState = (.error (.thrown "Unimplemented."), docState))
      ∧ responseXML docState = (.error (.thrown "Unimplemented."), docState)) :=
  ⟨rfl, rfl, rfl, rfl, c9_responseCoercion docState docComputed [] [] "" rfl rfl rfl rfl⟩

/-- C10 (amended): `open` after a completed exchange emits one ready-state
change, resets the ready state to OPENED with a fresh draft, and leaves the
previous exchange's raw response, computed materializations and every
derived getter (`responseText`, `response`, `status`, `statusText`, the
response headers) unchanged; they remain unchanged until the next exchange
makes progress — the raw response (and with it status and headers) is
replaced already at the next HEADERS_RECEIVED, while the body
materializations persist to the next DONE (see the counterexample for the
unamended "unchanged until a new exchange completes"). -/
theorem c10_openAfterDone (s : State) (m u : String) (_h4 : s.readyState = 4) :
    (openRequest s m u).2 = [Event.readyStateChange 1]
    ∧ (openRequest s m u).1.readyState = 1
    ∧ (openRequest s m u).1.draft = some { method := m, url := u, headers := [] }
    ∧ (openRequest s m u).1.response = s.response
    ∧ (openRequest s m u).1.computed = s.computed
    ∧ responseText (openRequest s m u).1 = responseText s
    ∧ (responseGet (openRequest s m u).1).1 = (responseGet s).1
    ∧ status (openRequest s m u).1 = status s
    ∧ statusText (openRequest s m u).1 = statusText s
    ∧ getAllResponseHeaders (openRequest s m u).1 = getAllResponseHeaders s
    ∧ (∀ r2, (headersArrive (sendStart (openRequest s m u).1) r2).1.response = some r2
        ∧ responseText (headersArrive (sendStart (openRequest s m u).1) r2).1
            = responseText s) := by
  refine ⟨rfl, rfl, rfl, rfl, rfl, rfl, ?_, rfl, rfl, rfl, fun r2 => ⟨rfl, rfl⟩⟩
  rw [responseGet_fst, responseGet_fst]
  rfl

theorem c10_witness :
    c10Done.readyState = 4
    ∧ ((openRequest c10Done "GET" "u2").2 = [Event.readyStateChange 1]
      ∧ (openRequest c10Done "GET" "u2").1.readyState = 1
      ∧ (openRequest c10Done "GET" "u2").1.draft =
          some { method := "GET", url := "u2", headers := [] }
      ∧ (openRequest c10Done "GET" "u2").1.response = c10Done.response
      ∧ (openRequest c10Done "GET" "u2").1.computed = c10Done.computed
      ∧ responseText (openRequest c10Done "GET" "u2").1 = responseText c10Done
      ∧ (responseGet (openRequest c10Done "GET" "u2").1).1 = (responseGet c10Done).1
      ∧ status (openRequest c10Done "GET" "u2").1 = status c10Done
      ∧ statusText (openRequest c10Done "GET" "u2").1 = statusText c10Done
      ∧ getAllResponseHeaders (openRequest c10Done "GET" "u2").1
          = getAllResponseHeaders c10Done
      ∧ (∀ r2, (headersArrive (sendStart (openRequest c10Done "GET" "u2").1) r2).1.response
            = some r2
          ∧ responseText (headersArrive (sendStart (openRequest c10Done "GET" "u2").1) r2).1
              = responseText c10Done)) :=
  ⟨rfl, c10_openAfterDone c10Done "GET" "u2" rfl⟩

/-- C10 counterexample: after the completed first exchange (status 200) is
reopened and a second exchange merely reaches HEADERS_RECEIVED (ready state
2, not complete), `status` already reads the new response's 404, refuting
"status remains readable unchanged until a new exchange completes". -/
theorem c10_counterexample :
    c10Done.readyState = 4
    ∧ status c10Done = .ok 200
    ∧ c10Mid.readyState = 2
    ∧ status c10Mid = .ok 404 :=
  ⟨rfl, rfl, rfl, rfl⟩

end Xhr
